import Mathlib

/-! GPT image creator (`GPT-image-creator/write_gpt.c`).

A shallow embedding of `write_gpt.c`.  Unsigned machine integers are natural
numbers reduced explicitly modulo `2 ^ 64`, `2 ^ 32`, `2 ^ 16` or `2 ^ 8`
where the C code can wrap or truncate.  Packed records are serialised
little-endian, field after field, in declaration order.
-/

namespace WriteGpt

/-! ## Machine arithmetic -/

/-- Number of values of a `uint64_t`. -/
def U64 : Nat := 2 ^ 64

/-- Number of values of a `uint32_t`. -/
def U32 : Nat := 2 ^ 32

/-- Number of values of a `uint16_t`. -/
def U16 : Nat := 2 ^ 16

/-- Number of values of a `uint8_t`. -/
def U8 : Nat := 2 ^ 8

/-- Unsigned 64-bit subtraction `a - b`, wrapping modulo `2 ^ 64`. -/
def sub64 (a b : Nat) : Nat := (a % U64 + U64 - b % U64) % U64

/-- Unsigned 64-bit addition `a + b`, wrapping modulo `2 ^ 64`. -/
def add64 (a b : Nat) : Nat := (a + b) % U64

/-- Unsigned 64-bit multiplication `a * b`, wrapping modulo `2 ^ 64`. -/
def mul64 (a b : Nat) : Nat := (a * b) % U64

/-- Ways in which a run of the program has no result. -/
inductive Fault where
  /-- An integer division or remainder by zero (undefined behaviour in C). -/
  | div_by_zero : Fault
  /-- The loop budget given to the model ran out before the loop exited. -/
  | out_of_fuel : Fault
  deriving DecidableEq, Repr

deriving instance DecidableEq for Except

/-! ## Global variables (`write_gpt.c`, lines 65-70) -/

/-- The `uint64_t` global variables of the program. -/
structure Globals where
  lba_size : Nat
  esp_size : Nat
  data_size : Nat
  image_size : Nat
  esp_lbas : Nat
  data_lbas : Nat
  image_size_lbas : Nat
  deriving DecidableEq, Repr

/-- The initial values of the globals: 512-byte blocks, a 33 MiB ESP and a
1 MiB data partition; the remaining globals are zero-initialised. -/
def Globals.initial : Globals :=
  { lba_size := 512
    esp_size := 1024 * 1024 * 33
    data_size := 1024 * 1024 * 1
    image_size := 0
    esp_lbas := 0
    data_lbas := 0
    image_size_lbas := 0 }

/-- Every global holds a value of its type `uint64_t`. -/
def Globals.inRange (g : Globals) : Prop :=
  g.lba_size < U64 ∧ g.esp_size < U64 ∧ g.data_size < U64 ∧ g.image_size < U64 ∧
    g.esp_lbas < U64 ∧ g.data_lbas < U64 ∧ g.image_size_lbas < U64

instance (g : Globals) : Decidable g.inRange := by
  unfold Globals.inRange; infer_instance

/-! ## Geometry (`bytes_to_lbas`, lines 87-89) -/

/-- The function `bytes_to_lbas`: `(bytes/lba_size) + (bytes % lba_size > 0 ? 1 : 0)`
in 64-bit unsigned arithmetic, reading the global `lba_size`. -/
def bytes_to_lbas (g : Globals) (bytes : Nat) : Except Fault Nat :=
  if g.lba_size = 0 then .error .div_by_zero
  else .ok (add64 (bytes / g.lba_size) (if bytes % g.lba_size > 0 then 1 else 0))

/-! ## Packed records and their serialisation (lines 10-57) -/

/-- Little-endian bytes of an unsigned integer field of `w` bytes holding `n`. -/
def le : Nat → Nat → List Nat
  | 0, _ => []
  | w + 1, n => n % 256 :: le w (n / 256)

/-- Bytes of an array field of `n` elements of `w` bytes each; elements the
list does not give are zero. -/
def arrayBytes (w n : Nat) (xs : List Nat) : List Nat :=
  ((List.range n).map (fun i => le w (xs.getD i 0))).flatten

/-- The record `Mbr_Partition` (lines 11-18). -/
structure Mbr_Partition where
  boot_indicator : Nat
  starting_chs : List Nat
  os_type : Nat
  ending_chs : List Nat
  starting_lba : Nat
  size_lba : Nat
  deriving DecidableEq, Repr

/-- An `Mbr_Partition` with every field zero. -/
def Mbr_Partition.zero : Mbr_Partition :=
  { boot_indicator := 0, starting_chs := [0, 0, 0], os_type := 0,
    ending_chs := [0, 0, 0], starting_lba := 0, size_lba := 0 }

/-- Packed layout of `Mbr_Partition`: `uint8_t`, `uint8_t[3]`, `uint8_t`,
`uint8_t[3]`, `uint32_t`, `uint32_t`. -/
def Mbr_Partition.serialize (p : Mbr_Partition) : List Nat :=
  le 1 p.boot_indicator ++ arrayBytes 1 3 p.starting_chs ++ le 1 p.os_type ++
    arrayBytes 1 3 p.ending_chs ++ le 4 p.starting_lba ++ le 4 p.size_lba

/-- The record `Mbr` (lines 21-27). -/
structure Mbr where
  boot_code : List Nat
  mbr_signature : Nat
  unknown : Nat
  partition : List Mbr_Partition
  boot_signature : Nat
  deriving DecidableEq, Repr

/-- Packed layout of `Mbr`: `uint8_t[440]`, `uint32_t`, `uint16_t`,
`Mbr_Partition[4]`, `uint16_t`. -/
def Mbr.serialize (m : Mbr) : List Nat :=
  arrayBytes 1 440 m.boot_code ++ le 4 m.mbr_signature ++ le 2 m.unknown ++
    ((List.range 4).map
      (fun i => (m.partition.getD i Mbr_Partition.zero).serialize)).flatten ++
    le 2 m.boot_signature

/-- The record `Gpt` (lines 30-46), with the field types of the source:
`size_of_partition_entry` and `partition_entry_array_crc32` are `uint16_t`. -/
structure Gpt where
  signature : Nat
  revision : Nat
  header_Size : Nat
  header_crc32 : Nat
  reserved_zero : Nat
  my_lba : Nat
  alternate_lba : Nat
  first_usable_lba : Nat
  last_usable_lba : Nat
  disk_guid : List Nat
  partition_entry_lba : Nat
  number_of_partition_entries : Nat
  size_of_partition_entry : Nat
  partition_entry_array_crc32 : Nat
  reserved : List Nat
  deriving DecidableEq, Repr

/-- Bytes of the fields of `Gpt` that come before `reserved`: `uint64_t`,
four `uint32_t`, four `uint64_t`, `uint16_t[8]`, `uint64_t`, `uint32_t`,
`uint16_t`, `uint16_t`. -/
def Gpt.fieldBytes (h : Gpt) : List Nat :=
  le 8 h.signature ++ le 4 h.revision ++ le 4 h.header_Size ++ le 4 h.header_crc32 ++
    le 4 h.reserved_zero ++ le 8 h.my_lba ++ le 8 h.alternate_lba ++
    le 8 h.first_usable_lba ++ le 8 h.last_usable_lba ++ arrayBytes 2 8 h.disk_guid ++
    le 8 h.partition_entry_lba ++ le 4 h.number_of_partition_entries ++
    le 2 h.size_of_partition_entry ++ le 2 h.partition_entry_array_crc32

/-- Packed layout of `Gpt`: the fields above, then `uint8_t reserved[420]`. -/
def Gpt.serialize (h : Gpt) : List Nat :=
  h.fieldBytes ++ arrayBytes 1 420 h.reserved

/-- The record `Gpt_Partition` (lines 49-57), with the field types of the
source: the two GUID fields are single `unsigned char`s. -/
structure Gpt_Partition where
  PartitionTypeGUID : Nat
  UniuePartitionGUID : Nat
  StartingLBA : Nat
  EndingLBA : Nat
  Attributes : Nat
  PartitionName : List Nat
  Reserved : Nat
  deriving DecidableEq, Repr

/-- Packed layout of `Gpt_Partition`: two `unsigned char`, three `uint64_t`,
`uint16_t[36]`, `uint64_t`. -/
def Gpt_Partition.serialize (p : Gpt_Partition) : List Nat :=
  le 1 p.PartitionTypeGUID ++ le 1 p.UniuePartitionGUID ++ le 8 p.StartingLBA ++
    le 8 p.EndingLBA ++ le 8 p.Attributes ++ arrayBytes 2 36 p.PartitionName ++
    le 8 p.Reserved

/-! ## The output stream -/

/-- The stream `image`: the bytes written so far, and how many more bytes the
stream accepts before a write comes up short. -/
structure File where
  data : List Nat
  room : Nat
  deriving DecidableEq, Repr

/-- The C library call `fwrite(buf, size, nmemb, f)`: appends as many of the
`size * nmemb` bytes as the stream accepts and returns the number of complete
items written. -/
def fwrite (buf : List Nat) (size nmemb : Nat) (f : File) : Nat × File :=
  let n := min (size * nmemb) f.room
  (if size = 0 then 0 else n / size,
   { data := f.data ++ buf.take n, room := f.room - n })

/-! ## Padding (`write_full_lba_size`, lines 76-80) -/

/-- The loop of `write_full_lba_size` from counter value `i`.  The counter
is a `uint8_t`, so `i++` wraps modulo 256; the bound is
`(lba_size - sizeof zero_sector) / sizeof zero_sector` in 64-bit unsigned
arithmetic.  `zero_sector` is the content of the local array, which the
source does not initialise. -/
def write_full_lba_size_loop (g : Globals) (zero_sector : List Nat) :
    Nat → Nat → File → Except Fault File
  | 0, _, _ => .error .out_of_fuel
  | fuel + 1, i, image =>
    if i < sub64 g.lba_size 512 / 512 then
      write_full_lba_size_loop g zero_sector fuel ((i + 1) % U8)
        (fwrite (arrayBytes 1 512 zero_sector) 512 1 image).2
    else .ok image

/-- The function `write_full_lba_size`. -/
def write_full_lba_size (fuel : Nat) (g : Globals) (zero_sector : List Nat)
    (image : File) : Except Fault File :=
  write_full_lba_size_loop g zero_sector fuel 0 image

/-! ## Protective MBR (`write_mbr`, lines 96-120) -/

/-- Lines 97-112 of `write_mbr`: the local copy `mbr_image_lbas`, the
assignment to the global `image_size_lbas` when the copy exceeds
`0xFFFFFFFF`, and the record `mbr`, whose `size_lba` is the `uint32_t`
conversion of `mbr_image_lbas - 1`.  Returns the record and the globals. -/
def write_mbr_record (g : Globals) : Mbr × Globals :=
  let mbr_image_lbas := g.image_size_lbas
  let g1 := if mbr_image_lbas > 0xFFFFFFFF then
      { g with image_size_lbas := 0x100000000 } else g
  let mbr : Mbr :=
    { boot_code := List.replicate 440 0
      mbr_signature := 0
      unknown := 0
      partition :=
        [ { boot_indicator := 0
            starting_chs := [0x00, 0x02, 0x00]
            os_type := 0xEE
            ending_chs := [0xFF, 0xFF, 0xFF]
            starting_lba := 0x00000001
            size_lba := sub64 mbr_image_lbas 1 % U32 },
          Mbr_Partition.zero, Mbr_Partition.zero, Mbr_Partition.zero ]
      boot_signature := 0xAA55 }
  (mbr, g1)

/-- What a call of `write_mbr` leaves behind: the record it built, its return
value, the globals and the stream. -/
structure MbrResult where
  mbr : Mbr
  ret : Bool
  globals : Globals
  image : File
  deriving DecidableEq, Repr

/-- The function `write_mbr`: builds the record, writes its `sizeof mbr`
bytes, returns `false` on a short write, otherwise pads and returns `true`. -/
def write_mbr (fuel : Nat) (g : Globals) (zero_sector : List Nat) (image : File) :
    Except Fault MbrResult :=
  let built := write_mbr_record g
  let bytes := built.1.serialize
  let written := fwrite bytes 1 bytes.length image
  if written.1 ≠ bytes.length then
    .ok { mbr := built.1, ret := false, globals := built.2, image := written.2 }
  else
    match write_full_lba_size fuel built.2 zero_sector written.2 with
    | .error e => .error e
    | .ok image2 => .ok { mbr := built.1, ret := true, globals := built.2, image := image2 }

/-! ## GPT header (`write_gpts`, lines 125-146) -/

/-- The record `gpt` of lines 127-143 of `write_gpts`, for `lba_size ≠ 0`.
`alternate_lba` and `last_usable_lba` are 64-bit subtractions from the
global `image_size_lbas`; `first_usable_lba` is `(16385 / lba_size) + 2`;
`reserved[0]` is the `uint8_t` conversion of `(lba_size-92)*8`; the array
elements the initialiser does not name are zero. -/
def write_gpts_record (g : Globals) : Gpt :=
  { signature := 0x5452415020494645
    revision := 0x00010000
    header_Size := 92
    header_crc32 := 0
    reserved_zero := 0
    my_lba := 1
    alternate_lba := sub64 g.image_size_lbas 1
    first_usable_lba := add64 (16385 / g.lba_size) 2
    last_usable_lba := sub64 g.image_size_lbas 2
    disk_guid := List.replicate 8 0
    partition_entry_lba := 2
    number_of_partition_entries := 128
    size_of_partition_entry := 128
    partition_entry_array_crc32 := 0
    reserved := mul64 (sub64 g.lba_size 92) 8 % U8 :: List.replicate 419 0 }

/-- The function `write_gpts`: builds the record `gpt` and returns `true`;
nothing is written to the stream.  Building the record divides by the global
`lba_size`.  Returns the record and the return value. -/
def write_gpts (g : Globals) (_image : File) : Except Fault (Gpt × Bool) :=
  if g.lba_size = 0 then .error .div_by_zero
  else .ok (write_gpts_record g, true)

/-! ## The program (`main`, lines 154-176) -/

/-- Lines 162-163 of `main`: `image_size = esp_size + data_size + (1024*1024)`
in 64-bit unsigned arithmetic, then `image_size_lbas = bytes_to_lbas(image_size)`. -/
def main_set_sizes (g : Globals) : Except Fault Globals :=
  let image_size := add64 (add64 g.esp_size g.data_size) (1024 * 1024)
  let g1 := { g with image_size := image_size }
  match bytes_to_lbas g1 image_size with
  | .error e => .error e
  | .ok n => .ok { g1 with image_size_lbas := n }

/-- The exit status `EXIT_SUCCESS`. -/
def EXIT_SUCCESS : Nat := 0

/-- The exit status `EXIT_FAILURE`. -/
def EXIT_FAILURE : Nat := 1

/-- What a run of `main` leaves behind: the exit status, the globals, the
stream (when it was opened), and the records built on the way. -/
structure MainResult where
  status : Nat
  globals : Globals
  image : Option File
  mbr : Option Mbr
  gpt : Option Gpt
  deriving DecidableEq, Repr

/-- The function `main`.  `opened` is the result of `fopen`: `none` when the
file could not be opened. -/
def main (fuel : Nat) (g : Globals) (zero_sector : List Nat) (opened : Option File) :
    Except Fault MainResult :=
  match opened with
  | none =>
    .ok { status := EXIT_FAILURE, globals := g, image := none, mbr := none, gpt := none }
  | some image =>
    match main_set_sizes g with
    | .error e => .error e
    | .ok g1 =>
      match write_mbr fuel g1 zero_sector image with
      | .error e => .error e
      | .ok r =>
        if r.ret = false then
          .ok { status := EXIT_FAILURE, globals := r.globals, image := some r.image,
                mbr := some r.mbr, gpt := none }
        else
          match write_gpts r.globals r.image with
          | .error e => .error e
          | .ok (gpt, ok) =>
            if ok = false then
              .ok { status := EXIT_FAILURE, globals := r.globals, image := some r.image,
                    mbr := some r.mbr, gpt := some gpt }
            else
              .ok { status := EXIT_SUCCESS, globals := r.globals, image := some r.image,
                    mbr := some r.mbr, gpt := some gpt }

/-! ## Configurations used as concrete inputs -/

/-- The built-in configuration with a 2 TiB ESP. -/
def Globals.twoTiB : Globals := { Globals.initial with esp_size := 2 ^ 41 }

/-- A configuration whose byte sizes add up to `2 ^ 64 + 2 ^ 20`. -/
def Globals.wrapping : Globals :=
  { Globals.initial with esp_size := 2 ^ 64 - 2 ^ 20, data_size := 2 ^ 20 }

/-- The built-in configuration with 32768-byte blocks. -/
def Globals.block32k : Globals := { Globals.initial with lba_size := 32768 }

/-- An empty stream that accepts `room` bytes. -/
def File.empty (room : Nat) : File := { data := [], room := room }

/-- The built-in configuration with 1536-byte blocks (not a power of two). -/
def Globals.block1536 : Globals := { Globals.initial with lba_size := 1536 }

/-- The built-in configuration with 1024-byte blocks. -/
def Globals.block1k : Globals := { Globals.initial with lba_size := 1024 }

/-- The built-in configuration with `2 ^ 18`-byte blocks. -/
def Globals.block256k : Globals := { Globals.initial with lba_size := 2 ^ 18 }

/-! ## The checksum the specification asks for

The source computes no checksum.  The definitions below follow the words of
the specification (section 4.2): the reflected CRC-32 with polynomial
`0xEDB88320`, initial value `0xFFFFFFFF` and final complement.  They are the
reference the stored `header_crc32` is compared with. -/

/-- One bit step of the reflected CRC-32: shift right, and fold in the
polynomial `0xEDB88320` when the bit shifted out is set. -/
def crc32_spec_bit (c : Nat) : Nat :=
  if c % 2 = 1 then Nat.xor (c / 2) 0xEDB88320 else c / 2

/-- One byte step of the reflected CRC-32: fold the byte into the low bits,
then eight bit steps. -/
def crc32_spec_byte (c b : Nat) : Nat :=
  crc32_spec_bit (crc32_spec_bit (crc32_spec_bit (crc32_spec_bit
    (crc32_spec_bit (crc32_spec_bit (crc32_spec_bit (crc32_spec_bit
      (Nat.xor c (b % 256)))))))))

/-- The CRC-32 of the specification: initial value `0xFFFFFFFF`, the byte
steps in order, final complement. -/
def crc32_spec (bytes : List Nat) : Nat :=
  Nat.xor (bytes.foldl crc32_spec_byte 0xFFFFFFFF) 0xFFFFFFFF

/-- The header bytes the specification checksums: the first `header_Size`
bytes of the serialised header with the `header_crc32` field zeroed. -/
def Gpt.crcInput (h : Gpt) : List Nat :=
  ({ h with header_crc32 := 0 } : Gpt).serialize.take h.header_Size

/-- The 92 bytes that the specification checksums for the primary header of the
built-in configuration, eight bytes to a line. -/
def headerBytes512 : List Nat :=
  [69, 70, 73, 32, 80, 65, 82, 84] ++
    [0, 0, 1, 0, 92, 0, 0, 0] ++
    [0, 0, 0, 0, 0, 0, 0, 0] ++
    [1, 0, 0, 0, 0, 0, 0, 0] ++
    [255, 23, 1, 0, 0, 0, 0, 0] ++
    [34, 0, 0, 0, 0, 0, 0, 0] ++
    [254, 23, 1, 0, 0, 0, 0, 0] ++
    [0, 0, 0, 0, 0, 0, 0, 0] ++
    [0, 0, 0, 0, 0, 0, 0, 0] ++
    [2, 0, 0, 0, 0, 0, 0, 0] ++
    [128, 0, 0, 0, 128, 0, 0, 0] ++
    [32, 0, 0, 0]

/-! ## Theorems -/

/-- The quotient-plus-remainder-flag expression is the ceiling of the quotient. -/
theorem div_add_flag_eq_ceil (b l : Nat) (hl : 0 < l) :
    b / l + (if b % l > 0 then 1 else 0) = ⌈(b : ℚ) / (l : ℚ)⌉₊ := by
  have hlq : (0 : ℚ) < (l : ℚ) := by exact_mod_cast hl
  have hdm : (b : ℚ) = (l : ℚ) * ((b / l : Nat) : ℚ) + ((b % l : Nat) : ℚ) := by
    exact_mod_cast (Nat.div_add_mod b l).symm
  by_cases hr : b % l > 0
  · rw [if_pos hr]
    symm
    rw [Nat.ceil_eq_iff (Nat.add_one_ne_zero _)]
    have hlt : b % l < l := Nat.mod_lt _ hl
    have hltq : ((b % l : Nat) : ℚ) < (l : ℚ) := by exact_mod_cast hlt
    have hrq : (0 : ℚ) < ((b % l : Nat) : ℚ) := by exact_mod_cast hr
    constructor
    · rw [lt_div_iff₀ hlq]
      simp only [Nat.add_sub_cancel]
      nlinarith
    · rw [div_le_iff₀ hlq]
      push_cast
      nlinarith
  · rw [if_neg hr, Nat.add_zero]
    have h0 : b % l = 0 := by omega
    rw [h0] at hdm
    have : (b : ℚ) / (l : ℚ) = ((b / l : Nat) : ℚ) := by
      rw [div_eq_iff (ne_of_gt hlq)]
      simp only [Nat.cast_zero, add_zero] at hdm
      linarith
    rw [this, Nat.ceil_natCast]

/-- The quotient-plus-remainder-flag expression of a 64-bit value fits in 64 bits. -/
theorem div_add_flag_lt (b l : Nat) (hl : 0 < l) (hb : b < U64) :
    b / l + (if b % l > 0 then 1 else 0) < U64 := by
  by_cases hr : b % l > 0
  · rw [if_pos hr]
    have h2 : 2 ≤ l := by
      rcases Nat.lt_or_ge l 2 with h | h
      · have h1 : l = 1 := by omega
        rw [h1, Nat.mod_one] at hr
        omega
      · exact h
    have : b / l ≤ b / 2 := Nat.div_le_div_left h2 (by decide)
    unfold U64 at *
    omega
  · rw [if_neg hr]
    have : b / l ≤ b := Nat.div_le_self _ _
    omega

/-- C1: for every 64-bit `bytes` and every `lba_size > 0`, `bytes_to_lbas`
returns the exact mathematical ceiling of `bytes / lba_size`; the 64-bit
addition does not wrap, so the result times `lba_size` is at least `bytes`;
and with `lba_size = 512` the inputs 0, 1, 512, 513 give 0, 1, 1, 2. -/
theorem bytes_to_lbas_ceil :
    (∀ (g : Globals) (bytes : Nat), 0 < g.lba_size → bytes < U64 →
      bytes_to_lbas g bytes = .ok ⌈(bytes : ℚ) / (g.lba_size : ℚ)⌉₊ ∧
      bytes ≤ ⌈(bytes : ℚ) / (g.lba_size : ℚ)⌉₊ * g.lba_size) ∧
    bytes_to_lbas Globals.initial 0 = .ok 0 ∧
    bytes_to_lbas Globals.initial 1 = .ok 1 ∧
    bytes_to_lbas Globals.initial 512 = .ok 1 ∧
    bytes_to_lbas Globals.initial 513 = .ok 2 := by
  refine ⟨?_, by decide, by decide, by decide, by decide⟩
  intro g bytes hl hb
  have hc := div_add_flag_eq_ceil bytes g.lba_size hl
  have hlt := div_add_flag_lt bytes g.lba_size hl hb
  constructor
  · unfold bytes_to_lbas add64
    rw [if_neg (by omega), Nat.mod_eq_of_lt hlt, hc]
  · rw [← hc]
    have hdm := Nat.div_add_mod bytes g.lba_size
    have hml := Nat.mod_lt bytes hl
    by_cases hr : bytes % g.lba_size > 0
    · rw [if_pos hr, Nat.add_mul, Nat.mul_comm]
      omega
    · rw [if_neg hr, Nat.add_zero, Nat.mul_comm]
      omega

/-- C1 at a concrete input: 513 bytes in 512-byte blocks. -/
theorem bytes_to_lbas_ceil_witness :
    bytes_to_lbas Globals.initial 513 = .ok ⌈((513 : Nat) : ℚ) / ((512 : Nat) : ℚ)⌉₊ ∧
      513 ≤ ⌈((513 : Nat) : ℚ) / ((512 : Nat) : ℚ)⌉₊ * 512 :=
  bytes_to_lbas_ceil.1 Globals.initial 513 (by decide) (by decide)

/-! ### Protective MBR size field -/

/-- C2 (the code at a failing input): with 512-byte blocks, a 2 TiB ESP and a
1 MiB data partition `main` computes `image_size_lbas = 0x100001000`, which
is above `0xFFFFFFFF`; the protective MBR that `write_mbr` builds and writes
has `size_lba = 0xFFF`, the low 32 bits of `image_size_lbas - 1`, where the
clamped value `min(image_size_lbas, 0x100000000) - 1` is `0xFFFFFFFF`. -/
theorem write_mbr_size_lba_wraps :
    (main_set_sizes Globals.twoTiB).toOption.map Globals.image_size_lbas
        = some 0x100001000 ∧
      (((main 1 Globals.twoTiB [] (some (File.empty 512))).toOption.bind MainResult.mbr).bind
        (fun m => m.partition.head?.map Mbr_Partition.size_lba)) = some 0xFFF ∧
      min 0x100001000 0x100000000 - 1 = 0xFFFFFFFF := by
  set_option maxRecDepth 100000 in decide

/-- The 32-bit conversion of `n - 1` is `n - 1` when `1 ≤ n ≤ 0xFFFFFFFF`. -/
theorem sub64_one_mod_U32 (n : Nat) (h1 : 1 ≤ n) (h2 : n ≤ 0xFFFFFFFF) :
    sub64 n 1 % U32 = n - 1 := by
  simp only [sub64, U64, U32]
  omega

/-- For every 64-bit `image_size_lbas ≥ 1` the `size_lba` built by `write_mbr`
is the low 32 bits of `image_size_lbas - 1`. -/
theorem write_mbr_size_lba_low32 (g : Globals) (h1 : 1 ≤ g.image_size_lbas)
    (h2 : g.image_size_lbas < U64) :
    (write_mbr_record g).1.partition.head?.map Mbr_Partition.size_lba
      = some ((g.image_size_lbas - 1) % 2 ^ 32) := by
  simp only [write_mbr_record, List.head?_cons, Option.map_some', sub64, U64, U32,
    Option.some.injEq] at h2 ⊢
  omega

/-- Whenever `write_mbr` returns, the record and the globals it leaves are
those of `write_mbr_record`. -/
theorem write_mbr_built (fuel : Nat) (g : Globals) (zero_sector : List Nat) (image : File)
    (r : MbrResult) (h : write_mbr fuel g zero_sector image = .ok r) :
    r.mbr = (write_mbr_record g).1 ∧ r.globals = (write_mbr_record g).2 := by
  unfold write_mbr at h
  simp only at h
  split at h
  · cases h
    exact ⟨rfl, rfl⟩
  · split at h
    · cases h
    · cases h
      exact ⟨rfl, rfl⟩

/-- `write_mbr_record` leaves the global `lba_size` as it is. -/
theorem write_mbr_record_lba_size (g : Globals) :
    (write_mbr_record g).2.lba_size = g.lba_size := by
  unfold write_mbr_record
  simp only
  split <;> rfl

/-- When the bound `(lba_size - 512) / 512` is zero the padding loop exits at
once and leaves the stream as it is. -/
theorem write_full_lba_size_no_pad (fuel : Nat) (g : Globals) (zero_sector : List Nat)
    (image : File) (hb : ¬ (0 < sub64 g.lba_size 512 / 512)) :
    write_full_lba_size (fuel + 1) g zero_sector image = .ok image := by
  unfold write_full_lba_size
  rw [write_full_lba_size_loop, if_neg hb]

/-- With 512-byte blocks the padding loop does not run and `write_mbr`
returns for every positive loop budget. -/
theorem write_mbr_returns_512 (fuel : Nat) (g : Globals) (zero_sector : List Nat)
    (image : File) (hl : g.lba_size = 512) :
    ∃ r, write_mbr (fuel + 1) g zero_sector image = .ok r := by
  have hb : ¬ (0 < sub64 (write_mbr_record g).2.lba_size 512 / 512) := by
    rw [write_mbr_record_lba_size, hl]
    decide
  unfold write_mbr
  simp only
  split
  · exact ⟨_, rfl⟩
  · rw [write_full_lba_size_no_pad _ _ _ _ hb]
    exact ⟨_, rfl⟩

/-- C3: for every image with `1 ≤ image_size_lbas ≤ 0xFFFFFFFF` the protective
MBR built by `write_mbr` has `size_lba = image_size_lbas - 1`; with the
built-in sizes and `lba_size = 512`, `main` computes `image_size_lbas = 71680`
and the MBR it writes has `size_lba = 71679`. -/
theorem write_mbr_size_lba_exact :
    (∀ g : Globals, 1 ≤ g.image_size_lbas → g.image_size_lbas ≤ 0xFFFFFFFF →
      (write_mbr_record g).1.partition.head?.map Mbr_Partition.size_lba
        = some (g.image_size_lbas - 1)) ∧
    (main_set_sizes Globals.initial).toOption.map Globals.image_size_lbas = some 71680 ∧
    (((main 1 Globals.initial [] (some (File.empty 512))).toOption.bind MainResult.mbr).bind
      (fun m => m.partition.head?.map Mbr_Partition.size_lba)) = some 71679 := by
  refine ⟨?_, by decide, by set_option maxRecDepth 100000 in decide⟩
  intro g h1 h2
  simp only [write_mbr_record, List.head?_cons, Option.map_some']
  rw [sub64_one_mod_U32 _ h1 h2]

/-- C3 at a concrete input: an image of 71680 blocks. -/
theorem write_mbr_size_lba_exact_witness :
    (write_mbr_record { Globals.initial with image_size_lbas := 71680 }).1.partition.head?.map
      Mbr_Partition.size_lba = some (71680 - 1) :=
  write_mbr_size_lba_exact.1 { Globals.initial with image_size_lbas := 71680 }
    (by decide) (by decide)

/-! ### Primary header positions -/

/-- C4 (the code at a failing input): with 512-byte blocks, a 2 TiB ESP and a
1 MiB data partition `main` succeeds and the primary header has `my_lba = 1`
and `partition_entry_lba = 2`, but `alternate_lba = 0xFFFFFFFF`, while
`bytes_to_lbas(image_size) - 1 = 0x100000FFF`: `write_mbr` has overwritten the
global `image_size_lbas` with `0x100000000` before `write_gpts` reads it. -/
theorem main_alternate_lba_clobbered :
    (main 1 Globals.twoTiB [] (some (File.empty 512))).toOption.map MainResult.status
        = some EXIT_SUCCESS ∧
      ((main 1 Globals.twoTiB [] (some (File.empty 512))).toOption.bind MainResult.gpt).map
        (fun h => (h.my_lba, h.partition_entry_lba, h.alternate_lba))
        = some (1, 2, 0xFFFFFFFF) ∧
      (bytes_to_lbas Globals.twoTiB (2 ^ 41 + 2 ^ 20 + 1024 * 1024)).toOption.map
        (fun n => sub64 n 1) = some 0x100000FFF ∧
      (main_set_sizes Globals.twoTiB).toOption.map Globals.image_size_lbas
        = some 0x100001000 ∧
      (main 1 Globals.twoTiB [] (some (File.empty 512))).toOption.map
        (fun r => r.globals.image_size_lbas) = some 0x100000000 := by
  set_option maxRecDepth 100000 in decide

/-! ### Image size in blocks -/

/-- What `main_set_sizes` stores when `lba_size` is not zero. -/
theorem main_set_sizes_ok (g : Globals) (hl : 0 < g.lba_size) :
    main_set_sizes g = .ok
      { g with
        image_size := add64 (add64 g.esp_size g.data_size) (1024 * 1024)
        image_size_lbas :=
          add64 (add64 (add64 g.esp_size g.data_size) (1024 * 1024) / g.lba_size)
            (if add64 (add64 g.esp_size g.data_size) (1024 * 1024) % g.lba_size > 0
              then 1 else 0) } := by
  have h0 : ¬ g.lba_size = 0 := by omega
  simp only [main_set_sizes, bytes_to_lbas, if_neg h0]

/-- C5 (counterexample): with `esp_size = 2^64 - 2^20`, `data_size = 2^20` and
`lba_size = 512` the sum `esp_size + data_size + 1048576` wraps to `2^20`, so
`main` computes `image_size_lbas = 2048`, which is not the ceiling of
`(esp_size + data_size + 1048576) / lba_size = 2^55 + 2048`. -/
theorem main_image_size_lbas_wraps :
    (main_set_sizes Globals.wrapping).toOption.map Globals.image_size_lbas = some 2048 ∧
      ⌈((2 ^ 64 - 2 ^ 20 + 2 ^ 20 + 1048576 : Nat) : ℚ) / ((512 : Nat) : ℚ)⌉₊
        = 2 ^ 55 + 2048 ∧
      (main_set_sizes Globals.wrapping).toOption.map Globals.image_size_lbas ≠
        some ⌈((Globals.wrapping.esp_size + Globals.wrapping.data_size + 1048576 : Nat) : ℚ)
          / ((Globals.wrapping.lba_size : Nat) : ℚ)⌉₊ := by
  have hv : (main_set_sizes Globals.wrapping).toOption.map Globals.image_size_lbas
      = some 2048 := by decide
  have hc : ⌈((2 ^ 64 - 2 ^ 20 + 2 ^ 20 + 1048576 : Nat) : ℚ) / ((512 : Nat) : ℚ)⌉₊
      = 2 ^ 55 + 2048 := by
    rw [← div_add_flag_eq_ceil _ _ (by decide)]
    decide
  refine ⟨hv, hc, ?_⟩
  rw [hv]
  have he : Globals.wrapping.esp_size + Globals.wrapping.data_size + 1048576
      = 2 ^ 64 - 2 ^ 20 + 2 ^ 20 + 1048576 := by decide
  have hl : Globals.wrapping.lba_size = 512 := by decide
  rw [he, hl, hc]
  decide

/-- C5 (amended): with ESP size 33 MiB, data size 1 MiB and `lba_size = 512`,
`main` computes `image_size_lbas = ceil((33 MiB + 1 MiB + 1 MiB) / 512) = 71680`
and `write_gpts` sets `first_usable_lba = 34`; in general, whenever
`lba_size > 0` and `esp_size + data_size + 1048576` does not overflow 64 bits,
`image_size_lbas = ceil((esp_size + data_size + 1048576) / lba_size)`. -/
theorem main_image_size_lbas_ceil :
    (∀ g : Globals, 0 < g.lba_size → g.esp_size + g.data_size + 1048576 < U64 →
      (main_set_sizes g).toOption.map Globals.image_size_lbas
        = some ⌈((g.esp_size + g.data_size + 1048576 : Nat) : ℚ) / (g.lba_size : ℚ)⌉₊) ∧
    (main_set_sizes Globals.initial).toOption.map Globals.image_size_lbas = some 71680 ∧
    ⌈((33 * 1048576 + 1 * 1048576 + 1048576 : Nat) : ℚ) / ((512 : Nat) : ℚ)⌉₊ = 71680 ∧
    ((main 1 Globals.initial [] (some (File.empty 512))).toOption.bind MainResult.gpt).map
      Gpt.first_usable_lba = some 34 := by
  refine ⟨?_, by decide, ?_, by set_option maxRecDepth 100000 in decide⟩
  · intro g hl hs
    have hsum : add64 (add64 g.esp_size g.data_size) (1024 * 1024)
        = g.esp_size + g.data_size + 1048576 := by
      simp only [add64, U64] at hs ⊢
      omega
    rw [main_set_sizes_ok g hl, hsum]
    have hlt := div_add_flag_lt _ g.lba_size hl hs
    rw [div_add_flag_eq_ceil _ _ hl] at hlt
    simp only [Except.toOption, Option.map_some', add64, div_add_flag_eq_ceil _ _ hl,
      Nat.mod_eq_of_lt hlt]
  · rw [← div_add_flag_eq_ceil _ _ (by decide)]
    decide

/-- C5 (amended) at a concrete input: the built-in configuration. -/
theorem main_image_size_lbas_ceil_witness :
    (main_set_sizes Globals.initial).toOption.map Globals.image_size_lbas
      = some ⌈((Globals.initial.esp_size + Globals.initial.data_size + 1048576 : Nat) : ℚ)
          / (Globals.initial.lba_size : ℚ)⌉₊ :=
  main_image_size_lbas_ceil.1 Globals.initial (by decide) (by decide)

/-! ### Usable range -/

/-- When `lba_size` is not zero `write_gpts` returns `true` with the record
of `write_gpts_record`. -/
theorem write_gpts_ok (g : Globals) (image : File) (hl : 0 < g.lba_size) :
    write_gpts g image = .ok (write_gpts_record g, true) := by
  have h0 : ¬ g.lba_size = 0 := by omega
  simp only [write_gpts, if_neg h0]

/-- C6 (the code at a failing input): with `lba_size = 32768 = 2^15` and the
built-in partition sizes `main` succeeds and the primary header built by
`write_gpts` has `first_usable_lba = 2`, which is also its
`partition_entry_lba`, while `ceil(16384 / lba_size) + 2 = 3`. -/
theorem write_gpts_first_usable_lba_32k :
    (main 64 Globals.block32k [] (some (File.empty 32768))).toOption.map MainResult.status
        = some EXIT_SUCCESS ∧
      ((main 64 Globals.block32k [] (some (File.empty 32768))).toOption.bind
        MainResult.gpt).map (fun h => (h.first_usable_lba, h.partition_entry_lba))
        = some (2, 2) ∧
      Globals.block32k.lba_size = 2 ^ 15 ∧
      ⌈((16384 : Nat) : ℚ) / ((Globals.block32k.lba_size : Nat) : ℚ)⌉₊ + 2 = 3 := by
  refine ⟨by set_option maxRecDepth 1000000 in decide,
    by set_option maxRecDepth 1000000 in decide, by decide, ?_⟩
  rw [← div_add_flag_eq_ceil _ _ (by decide)]
  decide

/-- For the power-of-two block sizes from 2 to 16384 the `first_usable_lba`
of `write_gpts` is `ceil(16384 / lba_size) + 2`. -/
theorem write_gpts_first_usable_lba_mid (g : Globals) (image : File) (k : Nat)
    (hk1 : 1 ≤ k) (hk2 : k ≤ 14) (hl : g.lba_size = 2 ^ k) :
    (write_gpts g image).toOption.map (fun r => r.1.first_usable_lba)
      = some (⌈((16384 : Nat) : ℚ) / (g.lba_size : ℚ)⌉₊ + 2) := by
  have hpos : 0 < g.lba_size := by rw [hl]; exact Nat.two_pow_pos k
  rw [write_gpts_ok g image hpos, ← div_add_flag_eq_ceil _ _ hpos]
  simp only [Except.toOption, Option.map_some', write_gpts_record, hl]
  interval_cases k <;> decide

/-- With one-byte blocks the `first_usable_lba` of `write_gpts` is 16387,
one more than `ceil(16384 / lba_size) + 2 = 16386`. -/
theorem write_gpts_first_usable_lba_one :
    (write_gpts { Globals.initial with lba_size := 1 } (File.empty 0)).toOption.map
        (fun r => r.1.first_usable_lba) = some 16387 ∧
      ⌈((16384 : Nat) : ℚ) / ((1 : Nat) : ℚ)⌉₊ + 2 = 16386 := by
  refine ⟨by decide, ?_⟩
  rw [← div_add_flag_eq_ceil _ _ (by decide)]
  decide

/-- For every configuration with `lba_size > 0` and `2 ≤ image_size_lbas < 2^64`,
`write_gpts` stores `last_usable_lba = image_size_lbas - 2` and
`alternate_lba = image_size_lbas - 1 = last_usable_lba + 1`. -/
theorem write_gpts_last_usable_lba (g : Globals) (image : File) (hl : 0 < g.lba_size)
    (h2 : 2 ≤ g.image_size_lbas) (hr : g.image_size_lbas < U64) :
    (write_gpts g image).toOption.map (fun r => (r.1.last_usable_lba, r.1.alternate_lba))
      = some (g.image_size_lbas - 2, g.image_size_lbas - 2 + 1) := by
  rw [write_gpts_ok g image hl]
  simp only [Except.toOption, Option.map_some', write_gpts_record, sub64, U64,
    Option.some.injEq, Prod.mk.injEq] at hr ⊢
  constructor <;> omega

/-- C7 (the code at a failing input): with the built-in configuration
(`lba_size = 512`, `image_size_lbas = 71680`) `write_gpts` stores
`last_usable_lba = 71678`, the block just before the backup header at
`alternate_lba = 71679`, while `image_size_lbas - ceil(16384 / lba_size) - 2`
is `71646`; a backup array of 32 blocks starting at `last_usable_lba + 1`
would end at block 71710, past the last block 71679 of the image. -/
theorem write_gpts_last_usable_lba_default :
    (main_set_sizes Globals.initial).toOption.map Globals.image_size_lbas = some 71680 ∧
      ((main 1 Globals.initial [] (some (File.empty 512))).toOption.bind MainResult.gpt).map
        (fun h => (h.last_usable_lba, h.alternate_lba)) = some (71678, 71679) ∧
      71680 - ⌈((16384 : Nat) : ℚ) / ((Globals.initial.lba_size : Nat) : ℚ)⌉₊ - 2 = 71646 ∧
      71678 + 1 + ⌈((16384 : Nat) : ℚ) / ((Globals.initial.lba_size : Nat) : ℚ)⌉₊ - 1
        = 71710 := by
  have hc : ⌈((16384 : Nat) : ℚ) / ((Globals.initial.lba_size : Nat) : ℚ)⌉₊ = 32 := by
    rw [← div_add_flag_eq_ceil _ _ (by decide)]
    decide
  refine ⟨by decide, by set_option maxRecDepth 100000 in decide, ?_, ?_⟩ <;> rw [hc]

/-! ### Byte layout of the records -/

/-- An integer field of `w` bytes serialises to `w` bytes. -/
theorem le_length (w n : Nat) : (le w n).length = w := by
  induction w generalizing n with
  | zero => rfl
  | succ w ih => simp only [le, List.length_cons, ih]

/-- Concatenating pieces of a common length `c`, one per list element. -/
theorem flatten_map_length (f : Nat → List Nat) (c : Nat) (hf : ∀ i, (f i).length = c)
    (l : List Nat) : ((l.map f).flatten).length = l.length * c := by
  induction l with
  | nil => simp
  | cons a l ih =>
    simp only [List.map_cons, List.flatten_cons, List.length_append, hf, ih, List.length_cons]
    ring

/-- An array field of `n` elements of `w` bytes serialises to `n * w` bytes. -/
theorem arrayBytes_length (w n : Nat) (xs : List Nat) :
    (arrayBytes w n xs).length = n * w := by
  unfold arrayBytes
  rw [flatten_map_length _ w (fun i => le_length w _), List.length_range]

/-- Every `Mbr_Partition` serialises to 16 bytes. -/
theorem Mbr_Partition_serialize_length (p : Mbr_Partition) : p.serialize.length = 16 := by
  simp only [Mbr_Partition.serialize, List.length_append, le_length, arrayBytes_length]

/-- Every `Mbr` serialises to 512 bytes. -/
theorem Mbr_serialize_length (m : Mbr) : m.serialize.length = 512 := by
  simp only [Mbr.serialize, List.length_append, le_length, arrayBytes_length,
    flatten_map_length _ 16 (fun i => Mbr_Partition_serialize_length _), List.length_range]

/-- The fields of a `Gpt` before `reserved` serialise to 88 bytes. -/
theorem Gpt_fieldBytes_length (h : Gpt) : h.fieldBytes.length = 88 := by
  simp only [Gpt.fieldBytes, List.length_append, le_length, arrayBytes_length]

/-- Every `Gpt` serialises to 508 bytes. -/
theorem Gpt_serialize_length (h : Gpt) : h.serialize.length = 508 := by
  simp only [Gpt.serialize, List.length_append, Gpt_fieldBytes_length, arrayBytes_length]

/-- The piece `x` that follows a prefix of `n` bytes. -/
theorem drop_take_append (p x r : List Nat) (n m : Nat) (hp : p.length = n)
    (hx : x.length = m) : ((p ++ (x ++ r)).drop n).take m = x := by
  rw [List.drop_left' hp, List.take_left' hx]

/-- The zero-initialised `boot_code` serialises to 440 zero bytes. -/
theorem boot_code_bytes :
    arrayBytes 1 440 (List.replicate 440 0) = List.replicate 440 0 := by
  set_option maxRecDepth 100000 in decide

/-- The four partition entries of an `Mbr` whose entries 1 to 3 are zero. -/
theorem partition_bytes (p : Mbr_Partition) :
    (List.map
      (fun i => ([p, Mbr_Partition.zero, Mbr_Partition.zero, Mbr_Partition.zero].getD
        i Mbr_Partition.zero).serialize)
      (List.range 4)).flatten = p.serialize ++ List.replicate 48 0 := by
  have hz : Mbr_Partition.zero.serialize = List.replicate 16 0 := by decide
  have hr : List.range 4 = [0, 1, 2, 3] := by decide
  have h48 : List.replicate 16 0 ++ (List.replicate 16 0 ++ (List.replicate 16 0 ++ []))
      = List.replicate 48 0 := by decide
  rw [hr]
  simp only [List.map, List.getD_cons_zero, List.getD_cons_succ, List.flatten, hz, h48]

/-- The 16 bytes of partition entry 0 of the record built by `write_mbr`. -/
theorem write_mbr_record_entry0 (g : Globals) :
    ((write_mbr_record g).1.partition.getD 0 Mbr_Partition.zero).serialize =
      [0, 0, 2, 0, 0xEE, 0xFF, 0xFF, 0xFF, 1, 0, 0, 0] ++
        le 4 (sub64 g.image_size_lbas 1 % U32) := by
  have h3 : arrayBytes 1 3 [0, 2, 0] = [0, 2, 0] := by decide
  have h4 : arrayBytes 1 3 [255, 255, 255] = [255, 255, 255] := by decide
  have h5 : le 1 0 = [0] := by decide
  have h6 : le 1 238 = [238] := by decide
  have h7 : le 4 1 = [1, 0, 0, 0] := by decide
  simp only [write_mbr_record, List.getD_cons_zero, Mbr_Partition.serialize, h3, h4, h5, h6,
    h7, List.append_assoc, List.cons_append, List.nil_append]

/-- The 512 bytes of the record built by `write_mbr`, written out. -/
theorem write_mbr_record_bytes (g : Globals) :
    (write_mbr_record g).1.serialize =
      List.replicate 446 0 ++ ([0, 0, 2, 0, 0xEE, 0xFF, 0xFF, 0xFF, 1, 0, 0, 0] ++
        (le 4 (sub64 g.image_size_lbas 1 % U32) ++ (List.replicate 48 0 ++ [0x55, 0xAA]))) := by
  have h2 : List.replicate 440 0 ++ le 4 0 ++ le 2 0 = List.replicate 446 0 := by
    set_option maxRecDepth 100000 in decide
  have h8 : le 2 43605 = [0x55, 0xAA] := by decide
  have h0 := write_mbr_record_entry0 g
  simp only [write_mbr_record, List.getD_cons_zero] at h0
  simp only [write_mbr_record, Mbr.serialize, boot_code_bytes, partition_bytes, h2, h8, h0,
    List.append_assoc, List.cons_append, List.nil_append]

/-- C8: the packed little-endian serialisation of the `Mbr` record built by
`write_mbr` is 512 bytes long; its first 440 bytes (boot code) are zero;
partition entry 0 lies at offset 446, with `os_type = 0xEE` at offset 450 and
`starting_lba = 1` at offsets 454..457; partition entries 1..3 (offsets
462..509) are zero; and offsets 510, 511 hold `0x55, 0xAA`. -/
theorem write_mbr_record_layout (g : Globals) :
    (write_mbr_record g).1.serialize.length = 512 ∧
    (write_mbr_record g).1.serialize.take 440 = List.replicate 440 0 ∧
    (((write_mbr_record g).1.serialize.drop 446).take 16 =
      ((write_mbr_record g).1.partition.getD 0 Mbr_Partition.zero).serialize) ∧
    (write_mbr_record g).1.serialize[450]? = some 0xEE ∧
    ((write_mbr_record g).1.serialize.drop 454).take 4 = [1, 0, 0, 0] ∧
    ((write_mbr_record g).1.serialize.drop 462).take 48 = List.replicate 48 0 ∧
    (write_mbr_record g).1.serialize.drop 510 = [0x55, 0xAA] := by
  refine ⟨Mbr_serialize_length _, ?_, ?_, ?_, ?_, ?_, ?_⟩
  · rw [write_mbr_record_bytes]
    set_option maxRecDepth 100000 in rfl
  · rw [write_mbr_record_entry0, write_mbr_record_bytes]
    generalize sub64 g.image_size_lbas 1 % U32 = sz
    set_option maxRecDepth 100000 in rfl
  · rw [write_mbr_record_bytes]
    set_option maxRecDepth 100000 in rfl
  · rw [write_mbr_record_bytes]
    set_option maxRecDepth 100000 in rfl
  · rw [write_mbr_record_bytes]
    set_option maxRecDepth 100000 in rfl
  · rw [write_mbr_record_bytes]
    set_option maxRecDepth 100000 in rfl

/-- The bytes that the built-in run of `main` leaves in the stream are the
serialisation of the record built by `write_mbr`. -/
theorem main_initial_image_data :
    ((main 1 Globals.initial [] (some (File.empty 512))).toOption.bind MainResult.image).map
        File.data
      = (main_set_sizes Globals.initial).toOption.map
          (fun g => (write_mbr_record g).1.serialize) := by
  set_option maxRecDepth 100000 in decide

/-- C9: for every configuration (`lba_size` not zero, so that `write_gpts`
builds its record) the primary header built by `write_gpts` has a signature
whose 8 little-endian bytes, the first 8 bytes of the serialised header, are
the ASCII string "EFI PART", revision `0x00010000`, header size 92,
`number_of_partition_entries = 128` and `size_of_partition_entry = 128`. -/
theorem write_gpts_constants (g : Globals) (image : File) (hl : 0 < g.lba_size) :
    ∃ h : Gpt, write_gpts g image = .ok (h, true) ∧
      le 8 h.signature = "EFI PART".toList.map Char.toNat ∧
      h.serialize.take 8 = "EFI PART".toList.map Char.toNat ∧
      h.revision = 0x00010000 ∧ h.header_Size = 92 ∧
      h.number_of_partition_entries = 128 ∧ h.size_of_partition_entry = 128 := by
  have h8 : le 8 0x5452415020494645 = "EFI PART".toList.map Char.toNat := by decide
  refine ⟨write_gpts_record g, write_gpts_ok g image hl, h8, ?_, rfl, rfl, rfl, rfl⟩
  have hs : (write_gpts_record g).serialize
      = le 8 0x5452415020494645 ++ ((write_gpts_record g).serialize.drop 8) := by
    simp only [Gpt.serialize, Gpt.fieldBytes, write_gpts_record, List.append_assoc]
    rw [List.drop_left' (le_length 8 _)]
  rw [hs, List.take_left' (le_length 8 _)]
  exact h8

/-- C9 at a concrete input: the built-in configuration. -/
theorem write_gpts_constants_witness :
    ∃ h : Gpt, write_gpts Globals.initial (File.empty 512) = .ok (h, true) ∧
      le 8 h.signature = "EFI PART".toList.map Char.toNat ∧
      h.serialize.take 8 = "EFI PART".toList.map Char.toNat ∧
      h.revision = 0x00010000 ∧ h.header_Size = 92 ∧
      h.number_of_partition_entries = 128 ∧ h.size_of_partition_entry = 128 :=
  write_gpts_constants Globals.initial (File.empty 512) (by decide)

/-- C10 (the code on every `Gpt` record): the packed serialisation is 508
bytes, not 512: 88 bytes of header fields followed by the 420 reserved bytes.
`partition_entry_lba` is at offset 72 and `number_of_partition_entries`
(32-bit) at offset 80, but `size_of_partition_entry` is a 16-bit field at
offset 84 and `partition_entry_array_crc32` a 16-bit field at offset 86, so
the reserved bytes start at offset 88. -/
theorem Gpt_serialize_layout (h : Gpt) :
    h.serialize.length = 508 ∧ h.fieldBytes.length = 88 ∧
    (h.serialize.drop 72).take 8 = le 8 h.partition_entry_lba ∧
    (h.serialize.drop 80).take 4 = le 4 h.number_of_partition_entries ∧
    (h.serialize.drop 84).take 2 = le 2 h.size_of_partition_entry ∧
    (h.serialize.drop 86).take 2 = le 2 h.partition_entry_array_crc32 ∧
    h.serialize.drop 88 = arrayBytes 1 420 h.reserved ∧
    (arrayBytes 1 420 h.reserved).length = 420 := by
  refine ⟨Gpt_serialize_length h, Gpt_fieldBytes_length h, ?_, ?_, ?_, ?_, ?_,
    arrayBytes_length 1 420 h.reserved⟩
  · simp only [Gpt.serialize, Gpt.fieldBytes]
    generalize hp : le 8 h.signature ++ le 4 h.revision ++ le 4 h.header_Size ++
      le 4 h.header_crc32 ++ le 4 h.reserved_zero ++ le 8 h.my_lba ++ le 8 h.alternate_lba ++
      le 8 h.first_usable_lba ++ le 8 h.last_usable_lba ++ arrayBytes 2 8 h.disk_guid = p
    have hlen : p.length = 72 := by
      rw [← hp]
      simp only [List.length_append, le_length, arrayBytes_length]
    simp only [List.append_assoc]
    exact drop_take_append p _ _ 72 8 hlen (le_length 8 _)
  · simp only [Gpt.serialize, Gpt.fieldBytes]
    generalize hp : le 8 h.signature ++ le 4 h.revision ++ le 4 h.header_Size ++
      le 4 h.header_crc32 ++ le 4 h.reserved_zero ++ le 8 h.my_lba ++ le 8 h.alternate_lba ++
      le 8 h.first_usable_lba ++ le 8 h.last_usable_lba ++ arrayBytes 2 8 h.disk_guid ++
      le 8 h.partition_entry_lba = p
    have hlen : p.length = 80 := by
      rw [← hp]
      simp only [List.length_append, le_length, arrayBytes_length]
    simp only [List.append_assoc]
    exact drop_take_append p _ _ 80 4 hlen (le_length 4 _)
  · simp only [Gpt.serialize, Gpt.fieldBytes]
    generalize hp : le 8 h.signature ++ le 4 h.revision ++ le 4 h.header_Size ++
      le 4 h.header_crc32 ++ le 4 h.reserved_zero ++ le 8 h.my_lba ++ le 8 h.alternate_lba ++
      le 8 h.first_usable_lba ++ le 8 h.last_usable_lba ++ arrayBytes 2 8 h.disk_guid ++
      le 8 h.partition_entry_lba ++ le 4 h.number_of_partition_entries = p
    have hlen : p.length = 84 := by
      rw [← hp]
      simp only [List.length_append, le_length, arrayBytes_length]
    simp only [List.append_assoc]
    exact drop_take_append p _ _ 84 2 hlen (le_length 2 _)
  · simp only [Gpt.serialize, Gpt.fieldBytes]
    generalize hp : le 8 h.signature ++ le 4 h.revision ++ le 4 h.header_Size ++
      le 4 h.header_crc32 ++ le 4 h.reserved_zero ++ le 8 h.my_lba ++ le 8 h.alternate_lba ++
      le 8 h.first_usable_lba ++ le 8 h.last_usable_lba ++ arrayBytes 2 8 h.disk_guid ++
      le 8 h.partition_entry_lba ++ le 4 h.number_of_partition_entries ++
      le 2 h.size_of_partition_entry = p
    have hlen : p.length = 86 := by
      rw [← hp]
      simp only [List.length_append, le_length, arrayBytes_length]
    have hx := drop_take_append p (le 2 h.partition_entry_array_crc32)
      (arrayBytes 1 420 h.reserved) 86 2 hlen (le_length 2 _)
    simp only [List.append_assoc] at hx ⊢
    exact hx
  · simp only [Gpt.serialize]
    exact List.drop_left' (Gpt_fieldBytes_length h)

/-! ### Partition entry record -/

/-- Every `Gpt_Partition` serialises to 106 bytes. -/
theorem Gpt_Partition_serialize_length (p : Gpt_Partition) : p.serialize.length = 106 := by
  simp only [Gpt_Partition.serialize, List.length_append, le_length, arrayBytes_length]

/-- C11 (the code on every `Gpt_Partition` record): the packed serialisation
of one `Gpt_Partition` is 106 bytes, not the 128 that `write_gpts` declares
as `size_of_partition_entry`: the two GUID fields are one byte each and
start at offsets 0 and 1, so `StartingLBA` is at offset 2.  128 such records
take 13568 bytes, not 16384. -/
theorem Gpt_Partition_serialize_size (p : Gpt_Partition) (g : Globals) :
    p.serialize.length = 106 ∧
      p.serialize.take 2 = le 1 p.PartitionTypeGUID ++ le 1 p.UniuePartitionGUID ∧
      (p.serialize.drop 2).take 8 = le 8 p.StartingLBA ∧
      (write_gpts_record g).size_of_partition_entry = 128 ∧
      (write_gpts_record g).number_of_partition_entries * p.serialize.length = 13568 := by
  refine ⟨Gpt_Partition_serialize_length p, ?_, ?_, rfl, ?_⟩
  · simp only [Gpt_Partition.serialize, List.append_assoc]
    rw [← List.append_assoc]
    exact List.take_left' (by simp only [List.length_append, le_length])
  · simp only [Gpt_Partition.serialize, List.append_assoc]
    rw [← List.append_assoc]
    exact drop_take_append _ _ _ 2 8 (by simp only [List.length_append, le_length])
      (le_length 8 _)
  · rw [Gpt_Partition_serialize_length]
    rfl

/-! ### Reserved bytes and checksum of the primary header -/

/-- For every `lba_size` that is a multiple of 32 (every power of two from
32 on), `write_gpts` stores 32 in `reserved[0]` and zero in the other 419
reserved bytes. -/
theorem write_gpts_record_reserved (g : Globals) (h32 : g.lba_size % 32 = 0) :
    (write_gpts_record g).reserved = 32 :: List.replicate 419 0 := by
  have hv : mul64 (sub64 g.lba_size 92) 8 % U8 = 32 := by
    simp only [mul64, sub64, U64, U8]
    omega
  simp only [write_gpts_record, hv]

/-- C12 (the code at a failing input): with the built-in configuration
(`lba_size = 512`) the first byte of the reserved area of the primary header
built by `write_gpts`, at offset 88 of the serialised record, is 32: the
8-bit conversion of `(lba_size - 92) * 8 = 3360`. -/
theorem write_gpts_reserved_nonzero :
    ((main 1 Globals.initial [] (some (File.empty 512))).toOption.bind MainResult.gpt).map
        (fun h => (h.reserved.head?, (h.serialize.drop h.fieldBytes.length).head?))
        = some (some 32, some 32) ∧
      (Globals.initial.lba_size - 92) * 8 = 3360 ∧ 3360 % 256 = 32 := by
  refine ⟨by set_option maxRecDepth 100000 in decide, by decide, by decide⟩

/-- The CRC-32 of the specification on the standard test vector. -/
theorem crc32_spec_check :
    crc32_spec ("123456789".toList.map Char.toNat) = 0xCBF43926 := by
  set_option maxRecDepth 10000 in decide

/-- The CRC-32 of the specification on the 92 header bytes of the built-in
configuration, computed eight bytes at a time. -/
theorem crc32_spec_headerBytes512 : crc32_spec headerBytes512 = 0xFC7A2BCA := by
  have h0 : List.foldl crc32_spec_byte 4294967295 [69, 70, 73, 32, 80, 65, 82, 84]
      = 1798544018 := by
    set_option maxRecDepth 10000 in decide
  have h1 : List.foldl crc32_spec_byte 1798544018 [0, 0, 1, 0, 92, 0, 0, 0]
      = 9882142 := by
    set_option maxRecDepth 10000 in decide
  have h2 : List.foldl crc32_spec_byte 9882142 [0, 0, 0, 0, 0, 0, 0, 0]
      = 3395491458 := by
    set_option maxRecDepth 10000 in decide
  have h3 : List.foldl crc32_spec_byte 3395491458 [1, 0, 0, 0, 0, 0, 0, 0]
      = 4102006339 := by
    set_option maxRecDepth 10000 in decide
  have h4 : List.foldl crc32_spec_byte 4102006339 [255, 23, 1, 0, 0, 0, 0, 0]
      = 2345082320 := by
    set_option maxRecDepth 10000 in decide
  have h5 : List.foldl crc32_spec_byte 2345082320 [34, 0, 0, 0, 0, 0, 0, 0]
      = 1906065846 := by
    set_option maxRecDepth 10000 in decide
  have h6 : List.foldl crc32_spec_byte 1906065846 [254, 23, 1, 0, 0, 0, 0, 0]
      = 3744975159 := by
    set_option maxRecDepth 10000 in decide
  have h7 : List.foldl crc32_spec_byte 3744975159 [0, 0, 0, 0, 0, 0, 0, 0]
      = 3294060449 := by
    set_option maxRecDepth 10000 in decide
  have h8 : List.foldl crc32_spec_byte 3294060449 [0, 0, 0, 0, 0, 0, 0, 0]
      = 3194226712 := by
    set_option maxRecDepth 10000 in decide
  have h9 : List.foldl crc32_spec_byte 3194226712 [2, 0, 0, 0, 0, 0, 0, 0]
      = 3792083133 := by
    set_option maxRecDepth 10000 in decide
  have h10 : List.foldl crc32_spec_byte 3792083133 [128, 0, 0, 0, 128, 0, 0, 0]
      = 2885402478 := by
    set_option maxRecDepth 10000 in decide
  have h11 : List.foldl crc32_spec_byte 2885402478 [32, 0, 0, 0]
      = 59102261 := by
    set_option maxRecDepth 10000 in decide
  have hfin : Nat.xor 59102261 0xFFFFFFFF = 0xFC7A2BCA := by decide
  rw [crc32_spec, headerBytes512]
  simp only [List.foldl_append, h0, h1, h2, h3, h4, h5,
    h6, h7, h8, h9, h10, h11]
  exact hfin

/-- C13 (the code at a failing input): with the built-in configuration the
primary header built by `write_gpts` declares `header_Size = 92` and stores
`header_crc32 = 0`, while the CRC-32 (reflected polynomial `0xEDB88320`,
initial value `0xFFFFFFFF`, final complement) of its first 92 serialised
bytes, taken with the `header_crc32` field zeroed, is `0xFC7A2BCA`. -/
theorem write_gpts_header_crc32_zero :
    ∃ h : Gpt,
      (main 1 Globals.initial [] (some (File.empty 512))).toOption.bind MainResult.gpt
        = some h ∧
      h.header_Size = 92 ∧ h.header_crc32 = 0 ∧ h.crcInput.length = 92 ∧
      crc32_spec h.crcInput = 0xFC7A2BCA ∧ h.header_crc32 ≠ crc32_spec h.crcInput := by
  have hin : (write_gpts_record
      { Globals.initial with image_size := 36700160, image_size_lbas := 71680 }).crcInput
      = headerBytes512 := by
    set_option maxRecDepth 100000 in decide
  refine ⟨write_gpts_record
      { Globals.initial with image_size := 36700160, image_size_lbas := 71680 },
    by set_option maxRecDepth 100000 in decide, rfl, rfl, ?_, ?_, ?_⟩
  · rw [hin]
    decide
  · rw [hin]
    exact crc32_spec_headerBytes512
  · rw [hin, crc32_spec_headerBytes512]
    decide


/-! ### Bytes written by a successful build -/

/-- C14 (the code at a failing input): with the built-in configuration and a
stream that accepts the whole image, `main` returns `EXIT_SUCCESS` having
written 512 bytes in all (the serialised protective MBR), while
`image_size_lbas * lba_size = 36700160`; no byte is written at offset 512,
where the primary header belongs. -/
theorem main_writes_only_mbr :
    (main 1 Globals.initial [] (some (File.empty 36700160))).toOption.map
        (fun r => (r.status, r.globals.image_size_lbas * r.globals.lba_size,
          r.image.map (fun f => (f.data.length, f.data.drop 512))))
        = some (EXIT_SUCCESS, 36700160, some (512, [])) := by
  set_option maxRecDepth 100000 in decide

/-! ### The padding loop -/

/-- While the bound is above 255 the 8-bit counter stays below it, so the
loop of `write_full_lba_size` uses up every loop budget. -/
theorem write_full_lba_size_loop_stuck (g : Globals) (zero_sector : List Nat)
    (hb : 256 ≤ sub64 g.lba_size 512 / 512) (fuel : Nat) :
    ∀ (i : Nat) (image : File), i < 256 →
      write_full_lba_size_loop g zero_sector fuel i image = .error .out_of_fuel := by
  induction fuel with
  | zero =>
    intro i image _
    rw [write_full_lba_size_loop]
  | succ fuel ih =>
    intro i image hi
    rw [write_full_lba_size_loop, if_pos (by omega)]
    exact ih _ _ (Nat.mod_lt _ (by decide))

/-- While the bound is at most 255 the loop of `write_full_lba_size`, started
at counter `i` with `n` steps to go, performs `n` sector writes and exits. -/
theorem write_full_lba_size_loop_runs (g : Globals) (zero_sector : List Nat)
    (hb : sub64 g.lba_size 512 / 512 ≤ 255) (n : Nat) :
    ∀ (i fuel : Nat) (image : File), i + n = sub64 g.lba_size 512 / 512 → n < fuel →
      write_full_lba_size_loop g zero_sector fuel i image =
        .ok (Nat.iterate (fun f => (fwrite (arrayBytes 1 512 zero_sector) 512 1 f).2)
          n image) := by
  induction n with
  | zero =>
    intro i fuel image hi hf
    obtain ⟨fuel, rfl⟩ : ∃ k, fuel = k + 1 := ⟨fuel - 1, by omega⟩
    rw [write_full_lba_size_loop, if_neg (by omega)]
    rfl
  | succ n ih =>
    intro i fuel image hi hf
    obtain ⟨fuel, rfl⟩ : ∃ k, fuel = k + 1 := ⟨fuel - 1, by omega⟩
    have hmod : (i + 1) % U8 = i + 1 := Nat.mod_eq_of_lt (by unfold U8; omega)
    rw [write_full_lba_size_loop, if_pos (by omega), hmod,
      ih (i + 1) fuel _ (by omega) (by omega)]
    rfl

/-- For a 64-bit `lba_size < 512` or `lba_size ≥ 131584` the bound exceeds
255 and `write_full_lba_size` exits for no loop budget. -/
theorem write_full_lba_size_never_exits (g : Globals) (zero_sector : List Nat)
    (image : File) (fuel : Nat) (hr : g.lba_size < U64)
    (hcase : g.lba_size < 512 ∨ 131584 ≤ g.lba_size) :
    255 < sub64 g.lba_size 512 / 512 ∧
      write_full_lba_size fuel g zero_sector image = .error .out_of_fuel := by
  have hb : 256 ≤ sub64 g.lba_size 512 / 512 := by
    simp only [sub64, U64] at hr ⊢
    omega
  refine ⟨by omega, ?_⟩
  unfold write_full_lba_size
  exact write_full_lba_size_loop_stuck g zero_sector hb fuel 0 image (by decide)

/-- C19: the padding loop of `write_full_lba_size` (8-bit counter, 64-bit
bound `(lba_size - 512) / 512` computed modulo `2^64`) terminates for every
`lba_size = 512 * m` with `512 ≤ lba_size ≤ 131072`, performing exactly
`lba_size / 512 - 1` sector writes, whenever the loop budget is at least `m`;
for a 64-bit `lba_size < 512` or `lba_size ≥ 131584` the bound exceeds 255
and the loop exits for no loop budget. -/
theorem write_full_lba_size_terminates :
    (∀ (g : Globals) (zero_sector : List Nat) (image : File) (m fuel : Nat),
      g.lba_size = 512 * m → 512 ≤ g.lba_size → g.lba_size ≤ 131072 → m ≤ fuel →
      write_full_lba_size fuel g zero_sector image =
        .ok (Nat.iterate (fun f => (fwrite (arrayBytes 1 512 zero_sector) 512 1 f).2)
          (g.lba_size / 512 - 1) image)) ∧
    (∀ (g : Globals) (zero_sector : List Nat) (image : File) (fuel : Nat),
      g.lba_size < U64 → (g.lba_size < 512 ∨ 131584 ≤ g.lba_size) →
      255 < sub64 g.lba_size 512 / 512 ∧
        write_full_lba_size fuel g zero_sector image = .error .out_of_fuel) := by
  constructor
  · intro g zero_sector image m fuel hm h1 h2 hf
    have hbound : sub64 g.lba_size 512 / 512 = g.lba_size / 512 - 1 := by
      simp only [sub64, U64]
      omega
    have hb : sub64 g.lba_size 512 / 512 ≤ 255 := by omega
    unfold write_full_lba_size
    rw [write_full_lba_size_loop_runs g zero_sector hb (g.lba_size / 512 - 1) 0 fuel image
      (by omega) (by omega)]
  · intro g zero_sector image fuel hr hcase
    exact write_full_lba_size_never_exits g zero_sector image fuel hr hcase

/-- C19 at concrete inputs: 1024-byte blocks need one sector write; with
131584-byte blocks the loop does not exit within 1000 steps. -/
theorem write_full_lba_size_terminates_witness :
    write_full_lba_size 2 Globals.block1k [] (File.empty 512) =
        .ok (Nat.iterate (fun f => (fwrite (arrayBytes 1 512 []) 512 1 f).2)
          (Globals.block1k.lba_size / 512 - 1) (File.empty 512)) ∧
      (255 < sub64 131584 512 / 512 ∧
        write_full_lba_size 1000 { Globals.initial with lba_size := 131584 } []
          (File.empty 512) = .error .out_of_fuel) :=
  ⟨write_full_lba_size_terminates.1 Globals.block1k [] (File.empty 512) 2 2
      (by decide) (by decide) (by decide) (by decide),
    write_full_lba_size_terminates.2 { Globals.initial with lba_size := 131584 } []
      (File.empty 512) 1000 (by decide) (Or.inr (by decide))⟩

/-! ### Bytes emitted by `write_mbr` -/

/-- A one-byte-item `fwrite` of a whole buffer into a stream with room for it
writes it all. -/
theorem fwrite_full (buf : List Nat) (f : File) (h : buf.length ≤ f.room) :
    fwrite buf 1 buf.length f =
      (buf.length, { data := f.data ++ buf, room := f.room - buf.length }) := by
  simp only [fwrite, Nat.one_mul, Nat.min_eq_left h, Nat.div_one, List.take_length]
  rfl

/-- The stream after `n` padding writes into a stream with room for them. -/
theorem pad_writes_full (zero_sector : List Nat) (n : Nat) :
    ∀ f : File, 512 * n ≤ f.room →
      Nat.iterate (fun f => (fwrite (arrayBytes 1 512 zero_sector) 512 1 f).2) n f =
        { data := f.data ++ (List.replicate n (arrayBytes 1 512 zero_sector)).flatten,
          room := f.room - 512 * n } := by
  induction n with
  | zero =>
    intro f _
    simp
  | succ n ih =>
    intro f hroom
    have hlen : (arrayBytes 1 512 zero_sector).length = 512 := arrayBytes_length 1 512 _
    have hmin : min (512 * 1) f.room = 512 := by omega
    have htake : List.take 512 (arrayBytes 1 512 zero_sector) = arrayBytes 1 512 zero_sector :=
      List.take_of_length_le (by omega)
    rw [Function.iterate_succ_apply, ih _ (by simp only [fwrite, hmin]; omega)]
    simp only [fwrite, hmin, htake, List.replicate_succ, List.flatten_cons,
      List.append_assoc, File.mk.injEq, true_and]
    omega

/-- When the MBR write is not short and the bound `(lba_size - 512) / 512` is
at most 255, `write_mbr` returns `true` for every loop budget above the
bound, having written the record and then performed the padding writes. -/
theorem write_mbr_ok (fuel : Nat) (g : Globals) (zero_sector : List Nat) (image : File)
    (hroom : 512 ≤ image.room) (hb : sub64 g.lba_size 512 / 512 ≤ 255)
    (hf : sub64 g.lba_size 512 / 512 < fuel) :
    write_mbr fuel g zero_sector image = .ok
      { mbr := (write_mbr_record g).1
        ret := true
        globals := (write_mbr_record g).2
        image := Nat.iterate (fun f => (fwrite (arrayBytes 1 512 zero_sector) 512 1 f).2)
          (sub64 g.lba_size 512 / 512)
          { data := image.data ++ (write_mbr_record g).1.serialize
            room := image.room - 512 } } := by
  have hlen : (write_mbr_record g).1.serialize.length = 512 := Mbr_serialize_length _
  have hw := fwrite_full (write_mbr_record g).1.serialize image (by omega)
  rw [hlen] at hw
  have hloop := write_full_lba_size_loop_runs (write_mbr_record g).2 zero_sector
    (by rw [write_mbr_record_lba_size]; exact hb) (sub64 g.lba_size 512 / 512) 0 fuel
    { data := image.data ++ (write_mbr_record g).1.serialize, room := image.room - 512 }
    (by rw [write_mbr_record_lba_size]; omega) hf
  unfold write_mbr
  simp only [hw, hlen, ne_eq, not_true_eq_false, if_false, write_full_lba_size, hloop]

/-- For every `lba_size = 512 * m` with `512 ≤ lba_size ≤ 131072`, a loop
budget of at least `m` and a stream with room for `lba_size` bytes,
`write_mbr` returns `true` having emitted exactly `lba_size` bytes: the 512
bytes of the record followed by `m - 1` copies of the 512-byte `zero_sector`
buffer. -/
theorem write_mbr_emits_lba_size (fuel : Nat) (g : Globals) (zero_sector : List Nat)
    (image : File) (m : Nat) (hm : g.lba_size = 512 * m) (h1 : 512 ≤ g.lba_size)
    (h2 : g.lba_size ≤ 131072) (hf : m ≤ fuel) (hroom : g.lba_size ≤ image.room) :
    ∃ r, write_mbr fuel g zero_sector image = .ok r ∧ r.ret = true ∧
      r.image.data = image.data ++ (write_mbr_record g).1.serialize ++
        (List.replicate (m - 1) (arrayBytes 1 512 zero_sector)).flatten ∧
      r.image.data.length = image.data.length + g.lba_size := by
  have hbound : sub64 g.lba_size 512 / 512 = m - 1 := by
    simp only [sub64, U64]
    omega
  have hok := write_mbr_ok fuel g zero_sector image (by omega) (by omega) (by omega)
  rw [hbound, pad_writes_full zero_sector (m - 1) _ (by simp only; omega)] at hok
  refine ⟨_, hok, rfl, ?_, ?_⟩
  · simp only [List.append_assoc]
  · simp only [List.length_append, Mbr_serialize_length,
      List.length_flatten, List.map_replicate,
      arrayBytes_length, List.sum_replicate, smul_eq_mul]
    omega

/-- For a 64-bit `lba_size < 512` or `lba_size ≥ 131584`, once the MBR write
is not short `write_mbr` returns for no loop budget. -/
theorem write_mbr_never_returns (fuel : Nat) (g : Globals) (zero_sector : List Nat)
    (image : File) (hr : g.lba_size < U64) (hcase : g.lba_size < 512 ∨ 131584 ≤ g.lba_size)
    (hroom : 512 ≤ image.room) :
    write_mbr fuel g zero_sector image = .error .out_of_fuel := by
  have hlen : (write_mbr_record g).1.serialize.length = 512 := Mbr_serialize_length _
  have hw := fwrite_full (write_mbr_record g).1.serialize image (by omega)
  rw [hlen] at hw
  have hloop := (write_full_lba_size_never_exits (write_mbr_record g).2 zero_sector
    { data := image.data ++ (write_mbr_record g).1.serialize, room := image.room - 512 }
    fuel (by rw [write_mbr_record_lba_size]; exact hr)
    (by rw [write_mbr_record_lba_size]; exact hcase)).2
  unfold write_mbr
  simp only [hw, hlen, ne_eq, not_true_eq_false, if_false, hloop]

/-- C16 (the code at failing inputs): with `lba_size = 2^18`, a power of two
above 512, `write_mbr` returns for no loop budget once the MBR is written:
the 8-bit counter never reaches the bound 511.  With `lba_size = 1024` and a
stream that accepts 512 bytes and no more, `write_mbr` returns `true` having
emitted 512 bytes, not 1024: the result of the padding `fwrite` is not
looked at. -/
theorem write_mbr_padding_defects :
    (∀ (fuel : Nat) (zero_sector : List Nat),
      write_mbr fuel Globals.block256k zero_sector (File.empty (2 ^ 18))
        = .error .out_of_fuel) ∧
      sub64 Globals.block256k.lba_size 512 / 512 = 511 ∧
      ((main_set_sizes Globals.block1k).toOption.bind
        (fun g => (write_mbr 2 g [] (File.empty 512)).toOption)).map
        (fun r => (r.ret, r.globals.lba_size, r.image.data.length))
        = some (true, 1024, 512) ∧
      Globals.block1k.lba_size = 2 ^ 10 := by
  refine ⟨?_, by decide, by set_option maxRecDepth 100000 in decide, by decide⟩
  intro fuel zero_sector
  exact write_mbr_never_returns fuel Globals.block256k zero_sector (File.empty (2 ^ 18))
    (by decide) (Or.inr (by decide)) (by decide)

/-! ### Validation of the block size -/

/-- What `main` does once the file is open, the MBR write is not short and
the padding bound is at most 255: it returns `EXIT_SUCCESS`. -/
theorem main_ok (fuel : Nat) (g : Globals) (zero_sector : List Nat) (image : File)
    (hl : 0 < g.lba_size) (hroom : 512 ≤ image.room)
    (hb : sub64 g.lba_size 512 / 512 ≤ 255) (hf : sub64 g.lba_size 512 / 512 < fuel) :
    ∃ g1 r, main_set_sizes g = .ok g1 ∧ write_mbr fuel g1 zero_sector image = .ok r ∧
      r.ret = true ∧
      main fuel g zero_sector (some image) = .ok
        { status := EXIT_SUCCESS, globals := r.globals, image := some r.image,
          mbr := some r.mbr, gpt := some (write_gpts_record r.globals) } := by
  obtain ⟨g1, hset, hlba⟩ : ∃ g1, main_set_sizes g = .ok g1 ∧ g1.lba_size = g.lba_size :=
    ⟨_, main_set_sizes_ok g hl, rfl⟩
  have hmbr := write_mbr_ok fuel g1 zero_sector image hroom
    (by rw [hlba]; exact hb) (by rw [hlba]; exact hf)
  have hpos : 0 < (write_mbr_record g1).2.lba_size := by
    rw [write_mbr_record_lba_size, hlba]
    exact hl
  refine ⟨g1, _, hset, hmbr, rfl, ?_⟩
  simp only [main, hset, hmbr, write_gpts_ok _ _ hpos, Bool.true_eq_false, if_false]

/-- No power of two equals 1536. -/
theorem not_pow_two_1536 (k : Nat) : 2 ^ k ≠ 1536 := by
  intro h
  have hk : k < 11 := by
    by_contra hge
    have : 2 ^ 11 ≤ 2 ^ k := Nat.pow_le_pow_right (by decide) (by omega)
    omega
  interval_cases k <;> omega

/-- C15 (counterexample): with `lba_size = 1536`, which is positive and not a
power of two, and the built-in partition sizes, `main` returns
`EXIT_SUCCESS`. -/
theorem main_block1536_succeeds :
    (main 3 Globals.block1536 [] (some (File.empty 1536))).toOption.map MainResult.status
        = some EXIT_SUCCESS ∧
      Globals.block1536.lba_size = 1536 ∧ (∀ k : Nat, 2 ^ k ≠ 1536) := by
  refine ⟨by set_option maxRecDepth 100000 in decide, by decide, not_pow_two_1536⟩

/-- C15 (amended): with `lba_size = 0` the build returns no success: the
geometry computation divides by zero before anything is written.  The block
size is not otherwise checked: for every `lba_size` from 512 to 131583, a
power of two or not, `main` returns `EXIT_SUCCESS` once the file is open and
the 512 bytes of the MBR are written. -/
theorem main_lba_size_unchecked :
    (∀ (fuel : Nat) (g : Globals) (zero_sector : List Nat) (image : File),
      g.lba_size = 0 → main fuel g zero_sector (some image) = .error .div_by_zero) ∧
    (∀ (fuel : Nat) (g : Globals) (zero_sector : List Nat) (image : File),
      512 ≤ g.lba_size → g.lba_size < 131584 → 512 ≤ image.room → 256 ≤ fuel →
      (main fuel g zero_sector (some image)).toOption.map MainResult.status
        = some EXIT_SUCCESS) := by
  constructor
  · intro fuel g zero_sector image h0
    simp only [main, main_set_sizes, bytes_to_lbas, h0, if_true]
  · intro fuel g zero_sector image h1 h2 hroom hf
    have hbound : sub64 g.lba_size 512 / 512 ≤ 255 := by
      simp only [sub64, U64]
      omega
    obtain ⟨g1, r, -, -, -, hmain⟩ :=
      main_ok fuel g zero_sector image (by omega) hroom hbound (by omega)
    rw [hmain]
    rfl

/-- C15 (amended) at concrete inputs: `lba_size = 0` and `lba_size = 1536`. -/
theorem main_lba_size_unchecked_witness :
    main 1 { Globals.initial with lba_size := 0 } [] (some (File.empty 512))
        = .error .div_by_zero ∧
      (main 256 Globals.block1536 [] (some (File.empty 512))).toOption.map MainResult.status
        = some EXIT_SUCCESS :=
  ⟨main_lba_size_unchecked.1 1 { Globals.initial with lba_size := 0 } [] (File.empty 512)
      (by decide),
    main_lba_size_unchecked.2 256 Globals.block1536 [] (File.empty 512)
      (by decide) (by decide) (by decide) (by decide)⟩

/-! ### Size of the usable range -/

/-- When the byte sizes do not overflow, the image size that `main` stores is
their plain sum. -/
theorem add64_sizes (g : Globals) (hs : g.esp_size + g.data_size + 1048576 < U64) :
    add64 (add64 g.esp_size g.data_size) (1024 * 1024)
      = g.esp_size + g.data_size + 1048576 := by
  simp only [add64, U64] at hs ⊢
  omega

/-- What `bytes_to_lbas` returns when `lba_size` is not zero. -/
theorem bytes_to_lbas_ok (g : Globals) (bytes : Nat) (hl : 0 < g.lba_size) :
    bytes_to_lbas g bytes
      = .ok (add64 (bytes / g.lba_size) (if bytes % g.lba_size > 0 then 1 else 0)) := by
  have h0 : ¬ g.lba_size = 0 := by omega
  simp only [bytes_to_lbas, if_neg h0]

/-- With `lba_size = 512`, byte sizes that add up to at most `0xFFFFFFFF`
blocks, a stream that takes the 512 MBR bytes and a positive loop budget,
`main` returns `EXIT_SUCCESS` with a header whose usable range, from
`first_usable_lba = 34`, holds the blocks of both partitions. -/
theorem main_partitions_fit_small (fuel : Nat) (g : Globals) (zero_sector : List Nat)
    (image : File) (hl : g.lba_size = 512)
    (hs : g.esp_size + g.data_size + 1048576 ≤ 0xFFFFFFFF * 512)
    (hroom : 512 ≤ image.room) (hf : 1 ≤ fuel) :
    ∃ r h a b, main fuel g zero_sector (some image) = .ok r ∧ r.status = EXIT_SUCCESS ∧
      r.gpt = some h ∧ bytes_to_lbas g g.esp_size = .ok a ∧
      bytes_to_lbas g g.data_size = .ok b ∧ h.first_usable_lba = 34 ∧
      a + b ≤ h.last_usable_lba - h.first_usable_lba + 1 := by
  have hpos : 0 < g.lba_size := by omega
  have hs64 : g.esp_size + g.data_size + 1048576 < U64 := by unfold U64; omega
  have hbound : sub64 g.lba_size 512 / 512 = 0 := by
    rw [hl]
    decide
  obtain ⟨g1, m, hset, hw, -, hmain⟩ :=
    main_ok fuel g zero_sector image hpos hroom (by omega) (by omega)
  rw [main_set_sizes_ok g hpos] at hset
  cases hset
  refine ⟨_, _, _, _, hmain, rfl, rfl, bytes_to_lbas_ok g _ hpos, bytes_to_lbas_ok g _ hpos,
    ?_, ?_⟩
  · rw [(write_mbr_built fuel _ zero_sector image m hw).2]
    simp only [write_gpts_record, write_mbr_record_lba_size, hl]
    decide
  · rw [(write_mbr_built fuel _ zero_sector image m hw).2]
    simp only [write_gpts_record, write_mbr_record, add64_sizes g hs64]
    simp only [add64, sub64, U64, hl] at hs ⊢
    split_ifs <;> simp only [] <;> omega

/-- C18 (the code at a failing input): with `lba_size = 512`, a 2 TiB ESP and
a 1 MiB data partition (no 64-bit overflow), `main` returns `EXIT_SUCCESS`
with a header that has `first_usable_lba = 34` and
`last_usable_lba = 0xFFFFFFFE`, not
`bytes_to_lbas(esp_size + data_size + 1048576) - 2 = 0x100000FFE`; the
partitions take `0x100000000 + 2048` blocks, more than the
`last_usable_lba - first_usable_lba + 1` blocks of that range. -/
theorem main_partitions_exceed_range :
    (main 1 Globals.twoTiB [] (some (File.empty 512))).toOption.map MainResult.status
        = some EXIT_SUCCESS ∧
      ((main 1 Globals.twoTiB [] (some (File.empty 512))).toOption.bind MainResult.gpt).map
        (fun h => (h.first_usable_lba, h.last_usable_lba)) = some (34, 0xFFFFFFFE) ∧
      bytes_to_lbas Globals.twoTiB Globals.twoTiB.esp_size = .ok 0x100000000 ∧
      bytes_to_lbas Globals.twoTiB Globals.twoTiB.data_size = .ok 2048 ∧
      (bytes_to_lbas Globals.twoTiB
        (Globals.twoTiB.esp_size + Globals.twoTiB.data_size + 1048576)).toOption.map
        (fun n => n - 2) = some 0x100000FFE ∧
      Globals.twoTiB.lba_size = 512 ∧
      Globals.twoTiB.esp_size + Globals.twoTiB.data_size + 1048576 < U64 ∧
      ¬ (0x100000000 + 2048 ≤ 0xFFFFFFFE - 34 + 1) := by
  refine ⟨by set_option maxRecDepth 100000 in decide,
    by set_option maxRecDepth 100000 in decide, by decide, by decide, by decide, by decide,
    by decide, by decide⟩

end WriteGpt
